import Mathlib

/-!
Shallow embedding of src/bin/countlines.py (lsst-dm/code-metrics).

The script iterates over a hard-coded list of weekly tags; for each tag it
invokes an external checkout tool (lsst-build prepare, with check=True),
reads build/manifest.txt, filters the package names, and invokes the cloc
line counter (with check=True) over the surviving package list.

The pure manifest-filtering loop (source lines 590-613) is embedded as the
function countlines.products below; filesystem existence checks are a
parameter fs : String -> Bool, and the overall control flow of the script
(source lines 556-632) is embedded as a trace-producing interpreter
countlines.runMain over an abstract environment.
-/

namespace countlines

/-- Python str.startswith(t) for a single candidate, on character lists. -/
def strStartsWith (s t : String) : Bool :=
  t.data.isPrefixOf s.data

/-- Python str.endswith(t) for a single candidate, on character lists. -/
def strEndsWith (s t : String) : Bool :=
  t.data.isSuffixOf s.data

/-- Python str.split(sep) for the one-character separator space, on
character lists: splits at every occurrence, keeping empty pieces, so the
result is always nonempty. -/
def pySplitSpaceAux : List Char → List (List Char)
  | [] => [[]]
  | c :: cs =>
    if c = ' ' then [] :: pySplitSpaceAux cs
    else
      match pySplitSpaceAux cs with
      | [] => [[c]]
      | t :: ts => (c :: t) :: ts

/-- Python line.split(" "). -/
def pySplitSpace (s : String) : List String :=
  (pySplitSpaceAux s.data).map String.mk

/-- Source line 598: prod = line.split(" ")[0]. The iterated line still
carries its trailing newline, exactly as Python file iteration yields it. -/
def prodOfLine (line : String) : String :=
  (pySplitSpace line).headD ""

/-- posixpath.join for one extra component: if the component is absolute it
replaces the accumulated path; otherwise a slash is inserted unless one is
already there (or the accumulated path is empty). -/
def pyJoin2 (a b : String) : String :=
  if strStartsWith b "/" then b
  else if a = "" ∨ strEndsWith a "/" = true then a ++ b
  else a ++ "/" ++ b

/-- posixpath.join folded over the remaining components. -/
def pyJoin (a : String) : List String → String
  | [] => a
  | b :: rest => pyJoin (pyJoin2 a b) rest

/-- Source line 601: os.path.join(sources_dir, prod, "ups", "eupspkg.cfg.sh"). -/
def cfgPath (sd prod : String) : String :=
  pyJoin sd [prod, "ups", "eupspkg.cfg.sh"]

/-- Source line 602: os.path.join(sources_dir, prod, "upstream"). -/
def upstreamPath (sd prod : String) : String :=
  pyJoin sd [prod, "upstream"]

/-- Source lines 590-613: the manifest-filtering loop. The manifest is the
list of lines exactly as Python file iteration yields them (with trailing
newlines); fs is the os.path.exists oracle; sd is sources_dir. -/
def products (sd : String) (fs : String → Bool) : List String → List String
  | [] => []
  | line :: rest =>
    if strStartsWith line "#" then products sd fs rest
    else if strStartsWith line "BUILD" then products sd fs rest
    else if fs (cfgPath sd (prodOfLine line)) || fs (upstreamPath sd (prodOfLine line)) then
      products sd fs rest
    else if prodOfLine line = "metadetect" then products sd fs rest
    else prodOfLine line :: products sd fs rest

/-- What one manifest line contributes to the candidate list: nothing when
any of the four skip conditions of the loop body fires, the extracted first
token otherwise. -/
def lineContrib (sd : String) (fs : String → Bool) (line : String) : List String :=
  if strStartsWith line "#" then []
  else if strStartsWith line "BUILD" then []
  else if fs (cfgPath sd (prodOfLine line)) || fs (upstreamPath sd (prodOfLine line)) then []
  else if prodOfLine line = "metadetect" then []
  else [prodOfLine line]

lemma products_cons (sd : String) (fs : String → Bool) (l : String) (rest : List String) :
    products sd fs (l :: rest) = lineContrib sd fs l ++ products sd fs rest := by
  simp only [products, lineContrib]
  by_cases h1 : strStartsWith l "#" = true
  · simp [h1]
  · by_cases h2 : strStartsWith l "BUILD" = true
    · simp [h1, h2]
    · by_cases h3 : (fs (cfgPath sd (prodOfLine l)) || fs (upstreamPath sd (prodOfLine l))) = true
      · simp [h1, h2, h3]
      · by_cases h4 : prodOfLine l = "metadetect" <;> simp [h1, h2, h3, h4]

lemma products_append (sd : String) (fs : String → Bool) (xs ys : List String) :
    products sd fs (xs ++ ys) = products sd fs xs ++ products sd fs ys := by
  induction xs with
  | nil => simp [products]
  | cons l xs ih =>
      rw [List.cons_append, products_cons, products_cons, ih, List.append_assoc]

lemma pySplitSpaceAux_ne_nil (cs : List Char) : pySplitSpaceAux cs ≠ [] := by
  cases cs with
  | nil => simp [pySplitSpaceAux]
  | cons c cs =>
      simp only [pySplitSpaceAux]
      by_cases h : c = ' '
      · simp [h]
      · simp only [h, if_false]
        cases pySplitSpaceAux cs <;> simp

lemma pySplitSpaceAux_headD (cs : List Char) :
    (pySplitSpaceAux cs).headD [] = cs.takeWhile (fun c => decide (c ≠ ' ')) := by
  induction cs with
  | nil => simp [pySplitSpaceAux]
  | cons c cs ih =>
      simp only [pySplitSpaceAux]
      by_cases h : c = ' '
      · simp [h, List.takeWhile]
      · simp only [h, if_false]
        rcases hsp : pySplitSpaceAux cs with _ | ⟨t, ts⟩
        · exact absurd hsp (pySplitSpaceAux_ne_nil cs)
        · rw [hsp] at ih
          simp only [List.headD] at ih
          simp [List.takeWhile, h, ih]

/-- Source lines 34-534: the hard-coded list of weekly tags, one per line,
with a leading and a trailing newline exactly as in the triple-quoted
literal. -/
def TAGS_STR : String :=
  "
w.2015.22
w.2015.30
w.2015.33
w.2015.35
w.2015.36
w.2015.37
w.2015.38
w.2015.39
w.2015.40
w.2015.43
w.2015.44
w.2015.45
w.2015.47
w.2016.03
w.2016.05
w.2016.06
w.2016.08
w.2016.10
w.2016.12
w.2016.15
w.2016.19
w.2016.20
w.2016.28
w.2016.32
w.2016.34
w.2016.36
w.2016.37
w.2016.39
w.2016.40
w.2016.41
w.2016.42
w.2016.43
w.2016.44
w.2016.45
w.2016.46
w.2016.47
w.2016.48
w.2016.49
w.2016.50
w.2016.51
w.2016.52
w.2016.53
w.2017.1
w.2017.10
w.2017.11
w.2017.12
w.2017.13
w.2017.14
w.2017.15
w.2017.16
w.2017.17
w.2017.18
w.2017.2
w.2017.20
w.2017.21
w.2017.22
w.2017.23
w.2017.24
w.2017.25
w.2017.26
w.2017.27
w.2017.28
w.2017.29
w.2017.3
w.2017.30
w.2017.31
w.2017.32
w.2017.33
w.2017.34
w.2017.35
w.2017.36
w.2017.37
w.2017.38
w.2017.39
w.2017.4
w.2017.40
w.2017.41
w.2017.42
w.2017.43
w.2017.44
w.2017.45
w.2017.46
w.2017.47
w.2017.48
w.2017.49
w.2017.5
w.2017.50
w.2017.51
w.2017.52
w.2017.6
w.2017.7
w.2017.8
w.2017.9
w.2018.01
w.2018.02
w.2018.03
w.2018.04
w.2018.05
w.2018.06
w.2018.07
w.2018.08
w.2018.09
w.2018.10
w.2018.11
w.2018.12
w.2018.13
w.2018.14
w.2018.15
w.2018.16
w.2018.17
w.2018.18
w.2018.19
w.2018.20
w.2018.21
w.2018.22
w.2018.23
w.2018.24
w.2018.25
w.2018.26
w.2018.27
w.2018.28
w.2018.29
w.2018.30
w.2018.31
w.2018.32
w.2018.33
w.2018.34
w.2018.35
w.2018.36
w.2018.37
w.2018.38
w.2018.39
w.2018.40
w.2018.41
w.2018.42
w.2018.43
w.2018.44
w.2018.45
w.2018.46
w.2018.47
w.2018.48
w.2018.49
w.2018.50
w.2018.51
w.2018.52
w.2019.01
w.2019.02
w.2019.03
w.2019.04
w.2019.05
w.2019.06
w.2019.07
w.2019.08
w.2019.09
w.2019.10
w.2019.11
w.2019.12
w.2019.13
w.2019.14
w.2019.15
w.2019.16
w.2019.17
w.2019.18
w.2019.19
w.2019.20
w.2019.21
w.2019.22
w.2019.23
w.2019.24
w.2019.25
w.2019.26
w.2019.27
w.2019.28
w.2019.29
w.2019.31
w.2019.32
w.2019.33
w.2019.34
w.2019.35
w.2019.36
w.2019.37
w.2019.38
w.2019.40
w.2019.41
w.2019.42
w.2019.43
w.2019.44
w.2019.45
w.2019.46
w.2019.47
w.2019.48
w.2019.49
w.2019.50
w.2019.51
w.2019.52
w.2020.01
w.2020.02
w.2020.03
w.2020.04
w.2020.05
w.2020.06
w.2020.07
w.2020.08
w.2020.09
w.2020.10
w.2020.11
w.2020.12
w.2020.13
w.2020.14
w.2020.15
w.2020.16
w.2020.17
w.2020.18
w.2020.19
w.2020.20
w.2020.21
w.2020.22
w.2020.23
w.2020.24
w.2020.25
w.2020.26
w.2020.27
w.2020.28
w.2020.29
w.2020.30
w.2020.31
w.2020.32
w.2020.33
w.2020.34
w.2020.35
w.2020.36
w.2020.37
w.2020.38
w.2020.39
w.2020.40
w.2020.41
w.2020.42
w.2020.43
w.2020.44
w.2020.45
w.2020.46
w.2020.47
w.2020.48
w.2020.49
w.2020.50
w.2020.51
w.2020.52
w.2021.01
w.2021.02
w.2021.03
w.2021.04
w.2021.05
w.2021.06
w.2021.07
w.2021.08
w.2021.09
w.2021.10
w.2021.11
w.2021.12
w.2021.13
w.2021.14
w.2021.15
w.2021.16
w.2021.17
w.2021.18
w.2021.19
w.2021.20
w.2021.21
w.2021.22
w.2021.23
w.2021.24
w.2021.25
w.2021.26
w.2021.27
w.2021.28
w.2021.29
w.2021.30
w.2021.31
w.2021.32
w.2021.33
w.2021.34
w.2021.35
w.2021.36
w.2021.37
w.2021.38
w.2021.39
w.2021.40
w.2021.41
w.2021.42
w.2021.43
w.2021.44
w.2021.45
w.2021.46
w.2021.47
w.2021.48
w.2021.49
w.2021.50
w.2021.51
w.2021.52
w.2022.01
w.2022.02
w.2022.03
w.2022.04
w.2022.05
w.2022.06
w.2022.07
w.2022.08
w.2022.09
w.2022.10
w.2022.11
w.2022.12
w.2022.13
w.2022.14
w.2022.15
w.2022.16
w.2022.17
w.2022.18
w.2022.19
w.2022.20
w.2022.21
w.2022.22
w.2022.23
w.2022.24
w.2022.25
w.2022.26
w.2022.27
w.2022.28
w.2022.29
w.2022.30
w.2022.31
w.2022.32
w.2022.34
w.2022.35
w.2022.36
w.2022.37
w.2022.38
w.2022.39
w.2022.40
w.2022.41
w.2022.42
w.2022.43
w.2022.44
w.2022.45
w.2022.46
w.2022.47
w.2022.48
w.2022.49
w.2022.50
w.2022.51
w.2022.52
w.2022.53
w.2023.01
w.2023.02
w.2023.03
w.2023.04
w.2023.05
w.2023.06
w.2023.07
w.2023.08
w.2023.09
w.2023.10
w.2023.11
w.2023.12
w.2023.13
w.2023.14
w.2023.15
w.2023.16
w.2023.17
w.2023.18
w.2023.19
w.2023.20
w.2023.21
w.2023.22
w.2023.23
w.2023.24
w.2023.25
w.2023.26
w.2023.27
w.2023.28
w.2023.29
w.2023.30
w.2023.32
w.2023.33
w.2023.34
w.2023.35
w.2023.36
w.2023.37
w.2023.38
w.2023.39
w.2023.40
w.2023.41
w.2023.42
w.2023.43
w.2023.44
w.2023.45
w.2023.46
w.2023.47
w.2023.48
w.2023.49
w.2023.50
w.2023.51
w.2023.52
w.2024.01
w.2024.02
w.2024.03
w.2024.04
w.2024.05
w.2024.06
w.2024.07
w.2024.08
w.2024.09
w.2024.10
w.2024.11
w.2024.12
w.2024.13
w.2024.14
w.2024.15
w.2024.16
w.2024.17
w.2024.18
w.2024.19
w.2024.20
w.2024.21
w.2024.22
w.2024.23
w.2024.24
w.2024.25
w.2024.26
w.2024.27
w.2024.28
w.2024.29
w.2024.30
w.2024.31
w.2024.32
w.2024.33
w.2024.34
w.2024.35
w.2024.36
w.2024.37
w.2024.38
w.2024.39
w.2024.40
w.2024.41
w.2024.42
w.2024.43
w.2024.44
w.2024.45
w.2024.46
w.2024.47
w.2024.48
w.2024.49
w.2024.50
w.2024.51
w.2025.01
w.2025.02
w.2025.03
w.2025.04
w.2025.05
w.2025.06
w.2025.07
w.2025.08
w.2025.09
w.2025.10
w.2025.11
w.2025.12
w.2025.13
w.2025.14
w.2025.15
w.2025.16
w.2025.17
w.2025.18
w.2025.19
w.2025.20
w.2025.21
w.2025.22
w.2025.23
w.2025.24
w.2025.25
w.2025.26
w.2025.27
w.2025.28
w.2025.29
w.2025.30
w.2025.31
w.2025.32
w.2025.33
w.2025.34
w.2025.35
w.2025.36
w.2025.37
w.2025.38
w.2025.39
w.2025.40
w.2025.41
w.2025.42
w.2025.43
w.2025.44
w.2025.45
w.2025.46
"

/-- Source line 550: TAGS = [t for t in TAGS_STR.split("\n") if len(t)]. -/
def TAGS : List String :=
  (TAGS_STR.splitOn "\n").filter (fun t => t.length != 0)


/-- Source line 28: location of the cloc executable. -/
def CLOC_EXE : String := "/opt/homebrew/bin/cloc"

/-- Source line 553: the EUPS product whose lines are counted. -/
def PRODUCT : String := "lsst_distrib"

/-- Observable actions of the script: a line printed to stdout, a line
printed to stderr, an invocation of the external checkout tool
(lsst-build prepare) for a tag, and an invocation of the external line
counter (cloc) for a tag over a candidate package list. -/
inductive Event where
  | stdoutLine : String → Event
  | stderrLine : String → Event
  | checkoutCall : String → Event
  | clocCall : String → List String → Event
deriving DecidableEq

/-- The script's external world: the optional LSST_BUILD_DIR environment
variable, the exit behaviour of the two external tools per tag, the
manifest lines materialised by a successful checkout of a tag, the
os.path.exists oracle, and os.path.normpath as an abstract primitive. -/
structure Env where
  lsstBuildDir : Option String
  checkoutOk : String → Bool
  manifest : String → List String
  clocOk : String → Bool
  fs : String → Bool
  normpath : String → String

/-- Source line 561: lsstsw_dir = normpath(join(LSST_BUILD_DIR, os.pardir)). -/
def lsstswDirOf (env : Env) (buildDir : String) : String :=
  env.normpath (pyJoin2 buildDir "..")

/-- Source line 562: sources_dir = join(lsstsw_dir, "build"). -/
def sourcesDirOf (env : Env) (buildDir : String) : String :=
  pyJoin2 (lsstswDirOf env buildDir) "build"

/-- Source lines 567-632: the per-tag sweep. For each tag the script prints
a progress line and invokes the checkout tool with check=True: a failing
checkout raises CalledProcessError, which is unhandled, so Python exits
with status 1 and nothing further runs. On success the manifest is
filtered, the product count printed; an empty candidate list prints an
error naming the tag to stderr and exits with status 1 before cloc is
invoked. Otherwise cloc runs with check=True: on failure the unhandled
exception again ends the process with status 1, on success the loop moves
to the next tag. The result is the list of observable events in order and
the process exit status. -/
def processTags (env : Env) (sd : String) : List String → List Event × Nat
  | [] => ([], 0)
  | tag :: rest =>
    let pre : List Event :=
      [Event.stdoutLine ("Checking out source with git ref " ++ tag), Event.checkoutCall tag]
    if env.checkoutOk tag = true then
      let prods := products sd env.fs (env.manifest tag)
      let found := Event.stdoutLine ("Found " ++ toString prods.length ++ " products")
      if prods = [] then
        (pre ++ [found,
          Event.stderrLine ("No products find with ref " ++ tag ++ ". Please investigate.")], 1)
      else if env.clocOk tag = true then
        (pre ++ [found, Event.clocCall tag prods] ++ (processTags env sd rest).1,
          (processTags env sd rest).2)
      else
        (pre ++ [found, Event.clocCall tag prods], 1)
    else
      (pre, 1)

/-- Source lines 556-632: the whole script. If LSST_BUILD_DIR is absent
from the environment the script prints a message to stderr and exits with
status 1 (source lines 556-558); otherwise it derives sources_dir and
sweeps the hard-coded tag list. -/
def runMain (env : Env) : List Event × Nat :=
  match env.lsstBuildDir with
  | none => ([Event.stderrLine "lsst_build has not been setup"], 1)
  | some d => processTags env (sourcesDirOf env d) TAGS

/-- Whitespace in the sense of the specification sentence for claim C1:
spaces or tabs (and line breaks, which the sentence also excludes from the
token). Spec-side definition, for comparison with the source-side
prodOfLine. -/
def specIsWhitespace (c : Char) : Bool :=
  c = ' ' || c = '\t' || c = '\n' || c = '\r'

/-- The extraction as claim C1 words it: the first whitespace-delimited
token of the line, so any run of whitespace delimits and the token itself
contains no whitespace. Spec-side definition, for comparison with the
source-side prodOfLine. -/
def specFirstToken (line : String) : String :=
  String.mk ((line.data.dropWhile specIsWhitespace).takeWhile (fun c => !specIsWhitespace c))

lemma products_skip (sd : String) (fs : String → Bool) (pre suf : List String) (line : String)
    (hc : lineContrib sd fs line = []) :
    products sd fs (pre ++ line :: suf) = products sd fs (pre ++ suf) := by
  rw [products_append, products_append, products_cons, hc, List.nil_append]

/-- Claim C1, as stated, is false on the code: the manifest line consisting
of the single token pkgA followed by a newline is neither a comment line
nor a BUILD line, yet the code extracts the token together with its
trailing newline (line.split(" ") splits on the space character only),
while the first whitespace-delimited token of that line is pkgA without
the newline. -/
theorem claim_C1_counterexample :
    strStartsWith "pkgA\n" "#" = false ∧
    strStartsWith "pkgA\n" "BUILD" = false ∧
    prodOfLine "pkgA\n" = "pkgA\n" ∧
    specFirstToken "pkgA\n" = "pkgA" ∧
    prodOfLine "pkgA\n" ≠ specFirstToken "pkgA\n" :=
  ⟨by decide, by decide, by decide, by decide, by decide⟩

/-- Claim C1 (amended): for every manifest line that is not a comment line
and not a BUILD-directive line, the package name extracted from it is the
longest prefix of the line containing no space character, so only the
space character delimits the token: tabs and the trailing newline are not
stripped, and a line with no space yields the whole line, newline
included. Equivalently, the token never contains a space, but may contain
any other character. -/
theorem claim_C1_amended (line : String) :
    (prodOfLine line).data = line.data.takeWhile (fun c => decide (c ≠ ' ')) ∧
    ∀ c ∈ (prodOfLine line).data, c ≠ ' ' := by
  have h : (prodOfLine line).data = line.data.takeWhile (fun c => decide (c ≠ ' ')) := by
    unfold prodOfLine pySplitSpace
    rcases hsp : pySplitSpaceAux line.data with _ | ⟨t, ts⟩
    · exact absurd hsp (pySplitSpaceAux_ne_nil _)
    · have hh := pySplitSpaceAux_headD line.data
      rw [hsp] at hh
      simp only [List.headD] at hh
      simpa using hh
  refine ⟨h, fun c hc => ?_⟩
  rw [h] at hc
  simpa using List.mem_takeWhile_imp hc

/-- Claim C3: a manifest line beginning with the comment marker or with
the BUILD directive keyword never contributes a package name to the
candidate list, wherever in the manifest it occurs. -/
theorem claim_C3 (sd : String) (fs : String → Bool) (pre suf : List String) (line : String)
    (h : strStartsWith line "#" = true ∨ strStartsWith line "BUILD" = true) :
    products sd fs (pre ++ line :: suf) = products sd fs (pre ++ suf) := by
  refine products_skip sd fs pre suf line ?_
  rcases h with h | h
  · simp [lineContrib, h]
  · by_cases h1 : strStartsWith line "#" = true <;> simp [lineContrib, h1, h]

/-- Claim C3 witness at a concrete comment line. -/
theorem claim_C3_witness :
    products "build" (fun _ => false) ([] ++ "# header\n" :: ["pkgB 2.0\n"]) =
      products "build" (fun _ => false) ([] ++ ["pkgB 2.0\n"]) :=
  claim_C3 "build" (fun _ => false) [] ["pkgB 2.0\n"] "# header\n" (Or.inl (by decide))

/-- Claim C4: for a package named on a manifest line, existence of the
package-configuration marker file alone, or existence of the upstream
marker directory alone, suffices to exclude that line's package from the
candidate list, each condition independent of the other. -/
theorem claim_C4 (sd : String) (fs : String → Bool) (pre suf : List String) (line : String)
    (h : fs (cfgPath sd (prodOfLine line)) = true ∨ fs (upstreamPath sd (prodOfLine line)) = true) :
    products sd fs (pre ++ line :: suf) = products sd fs (pre ++ suf) := by
  refine products_skip sd fs pre suf line ?_
  by_cases h1 : strStartsWith line "#" = true
  · simp [lineContrib, h1]
  · by_cases h2 : strStartsWith line "BUILD" = true
    · simp [lineContrib, h1, h2]
    · rcases h with h | h <;> simp [lineContrib, h1, h2, h]

/-- Claim C4 witness: only the upstream marker directory exists for pkgA
(the configuration marker file does not), and pkgA is still excluded. -/
theorem claim_C4_witness :
    products "build" (fun p => p == "build/pkgA/upstream")
        ([] ++ "pkgA 1.0\n" :: ["pkgB 2.0\n"]) =
      products "build" (fun p => p == "build/pkgA/upstream") ([] ++ ["pkgB 2.0\n"]) :=
  claim_C4 "build" (fun p => p == "build/pkgA/upstream") [] ["pkgB 2.0\n"] "pkgA 1.0\n"
    (Or.inr (by decide))

/-- Claim C5: once a manifest line has passed the comment, directive and
marker checks, the static exclusion test is decided exactly by
propositional string equality of the extracted name with the single entry
of the static list, which is exact and case-sensitive; the test applies in
addition to (independently of) the marker checks. -/
theorem claim_C5 (sd : String) (fs : String → Bool) (line : String) (rest : List String)
    (h1 : strStartsWith line "#" = false)
    (h2 : strStartsWith line "BUILD" = false)
    (h3 : fs (cfgPath sd (prodOfLine line)) = false)
    (h4 : fs (upstreamPath sd (prodOfLine line)) = false) :
    products sd fs (line :: rest) =
      if prodOfLine line = "metadetect" then products sd fs rest
      else prodOfLine line :: products sd fs rest := by
  simp [products, h1, h2, h3, h4]

/-- Claim C5 witness at a concrete metadetect line with no markers. -/
theorem claim_C5_witness :
    products "build" (fun _ => false) ["metadetect 1.0\n"] =
      (if prodOfLine "metadetect 1.0\n" = "metadetect"
       then products "build" (fun _ => false) []
       else prodOfLine "metadetect 1.0\n" :: products "build" (fun _ => false) []) :=
  claim_C5 "build" (fun _ => false) "metadetect 1.0\n" [] (by decide) (by decide) rfl rfl

/-- The filesystem of the end-to-end scenario of claim C6: exactly the
configuration marker file of pkgA exists, and no other path. -/
def fsC6 : String → Bool :=
  fun p => p == "build/pkgA/ups/eupspkg.cfg.sh"

/-- Claim C6: on the four-line manifest consisting of a comment line, a
BUILD line, a pkgA line and a pkgB line, where only pkgA has the
configuration marker file, the filtered candidate list is exactly
the one-element list holding pkgB. -/
theorem claim_C6 :
    products "build" fsC6 ["# header\n", "BUILD abc\n", "pkgA 1.0\n", "pkgB 2.0\n"] =
      ["pkgB"] := by
  decide

/-- Claim C2: when the checkout of a tag succeeds but the filtered
candidate list for it is empty, the sweep exits with status 1, writes the
error message naming that tag to the error stream, and never invokes the
line-counting tool. -/
theorem claim_C2 (env : Env) (sd tag : String) (rest : List String)
    (hok : env.checkoutOk tag = true)
    (hempty : products sd env.fs (env.manifest tag) = []) :
    (processTags env sd (tag :: rest)).2 = 1 ∧
    Event.stderrLine ("No products find with ref " ++ tag ++ ". Please investigate.")
      ∈ (processTags env sd (tag :: rest)).1 ∧
    ∀ t ps, Event.clocCall t ps ∉ (processTags env sd (tag :: rest)).1 := by
  refine ⟨?_, ?_, fun t ps => ?_⟩ <;> simp [processTags, hok, hempty]

/-- The environment of the claim C2 witness: every checkout succeeds and
materialises a manifest holding a single comment line, so the filtered
candidate list is empty. -/
def envC2 : Env :=
  { lsstBuildDir := some "/work/lsstsw/lsst_build"
    checkoutOk := fun _ => true
    manifest := fun _ => ["# empty\n"]
    clocOk := fun _ => true
    fs := fun _ => false
    normpath := fun s => s }

/-- Claim C2 witness at a concrete tag. -/
theorem claim_C2_witness : (processTags envC2 "build" ["w.2025.01"]).2 = 1 :=
  (claim_C2 envC2 "build" "w.2025.01" [] rfl (by decide)).1

/-- Claim C7: when LSST_BUILD_DIR is not set, the script writes the fatal
message to the error stream and exits with status exactly 1, and its trace
holds no checkout-tool invocation and no line-counter invocation. -/
theorem claim_C7 (env : Env) (h : env.lsstBuildDir = none) :
    runMain env = ([Event.stderrLine "lsst_build has not been setup"], 1) ∧
    (∀ t, Event.checkoutCall t ∉ (runMain env).1) ∧
    (∀ t ps, Event.clocCall t ps ∉ (runMain env).1) := by
  have he : runMain env = ([Event.stderrLine "lsst_build has not been setup"], 1) := by
    simp [runMain, h]
  refine ⟨he, fun t => ?_, fun t ps => ?_⟩ <;> rw [he] <;> simp

/-- The environment of the claim C7 witness: LSST_BUILD_DIR is absent. -/
def envC7 : Env :=
  { lsstBuildDir := none
    checkoutOk := fun _ => true
    manifest := fun _ => []
    clocOk := fun _ => true
    fs := fun _ => false
    normpath := fun s => s }

/-- Claim C7 witness. -/
theorem claim_C7_witness :
    runMain envC7 = ([Event.stderrLine "lsst_build has not been setup"], 1) :=
  (claim_C7 envC7 rfl).1

/-- Claim C8: when the checkout tool fails on a tag, the sweep ends at once
with exit status 1: the trace holds only the progress line and that one
checkout invocation, so no manifest filtering output, no line-counter
invocation, and no checkout of any later tag occurs. -/
theorem claim_C8 (env : Env) (sd tag : String) (rest : List String)
    (hfail : env.checkoutOk tag = false) :
    processTags env sd (tag :: rest) =
      ([Event.stdoutLine ("Checking out source with git ref " ++ tag),
        Event.checkoutCall tag], 1) ∧
    (∀ t ps, Event.clocCall t ps ∉ (processTags env sd (tag :: rest)).1) ∧
    (∀ t, t ≠ tag → Event.checkoutCall t ∉ (processTags env sd (tag :: rest)).1) := by
  have he : processTags env sd (tag :: rest) =
      ([Event.stdoutLine ("Checking out source with git ref " ++ tag),
        Event.checkoutCall tag], 1) := by
    simp [processTags, hfail]
  refine ⟨he, fun t ps => ?_, fun t ht => ?_⟩
  · rw [he]; simp
  · rw [he]; simp [ht]

/-- The environment of the claim C8 witness: every checkout fails. -/
def envC8 : Env :=
  { lsstBuildDir := some "/work/lsstsw/lsst_build"
    checkoutOk := fun _ => false
    manifest := fun _ => ["pkgB 2.0\n"]
    clocOk := fun _ => true
    fs := fun _ => false
    normpath := fun s => s }

/-- Claim C8 witness at a two-tag sweep whose first checkout fails. -/
theorem claim_C8_witness :
    processTags envC8 "build" ["w.2025.01", "w.2025.02"] =
      ([Event.stdoutLine ("Checking out source with git ref " ++ "w.2025.01"),
        Event.checkoutCall "w.2025.01"], 1) :=
  (claim_C8 envC8 "build" "w.2025.01" ["w.2025.02"] rfl).1

/-- Claim C9: the candidate-list computation is deterministic: two runs
over the same tag with an identical manifest and a filesystem whose marker
state agrees on every path produce identical candidate lists, in
membership and order. -/
theorem claim_C9 (sd : String) (fs1 fs2 : String → Bool) (lines1 lines2 : List String)
    (hfs : ∀ p, fs1 p = fs2 p) (hl : lines1 = lines2) :
    products sd fs1 lines1 = products sd fs2 lines2 := by
  subst hl
  rw [funext hfs]

/-- Claim C9 witness: two extensionally equal filesystem oracles on the
same manifest. -/
theorem claim_C9_witness :
    products "build" (fun _ => false) ["pkgB 2.0\n"] =
      products "build" (fun p => false && (p == "zzz")) ["pkgB 2.0\n"] :=
  claim_C9 "build" (fun _ => false) (fun p => false && (p == "zzz"))
    ["pkgB 2.0\n"] ["pkgB 2.0\n"] (fun _ => rfl) rfl

/-- Claim C10: a blank manifest line is not skipped: the line holding only
a newline passes the comment, directive and static-list checks, its
extracted token is the newline string itself, and whenever neither marker
path derived from that token exists, the token is appended to the
candidate list as a spurious candidate. -/
theorem claim_C10 (sd : String) (fs : String → Bool) (rest : List String)
    (h1 : fs (cfgPath sd "\n") = false)
    (h2 : fs (upstreamPath sd "\n") = false) :
    products sd fs ("\n" :: rest) = "\n" :: products sd fs rest := by
  have s1 : strStartsWith "\n" "#" = false := by decide
  have s2 : strStartsWith "\n" "BUILD" = false := by decide
  have s3 : prodOfLine "\n" = "\n" := by decide
  have s4 : ("\n" : String) ≠ "metadetect" := by decide
  rw [products_cons]
  simp [lineContrib, s1, s2, s3, s4, h1, h2]

/-- Claim C10 witness: a manifest holding one blank line and one package
line, on a filesystem with no marker paths at all. -/
theorem claim_C10_witness :
    products "build" (fun _ => false) ["\n", "pkgB 2.0\n"] =
      "\n" :: products "build" (fun _ => false) ["pkgB 2.0\n"] :=
  claim_C10 "build" (fun _ => false) ["pkgB 2.0\n"] rfl rfl

end countlines
